import Mathlib

/-!
Shallow embedding of `src/hal/transport/RFM69/MyTransportRFM69.cpp` (MySensors
RFM69 transport facade).  The file has two build-time variants:

* the "new driver" variant (`MY_RFM69_NEW_DRIVER`), optionally with the
  interrupt-buffered receive queue (`MY_RX_MESSAGE_BUFFER_FEATURE`); and
* the "old driver" synchronous variant.

The RFM69 register-level driver and the `CircularBuffer` container live
elsewhere in the repository (not under `src/`); where their behaviour decides
a claim they are modelled from the spec, with a doc comment saying so.
Machine bytes are modelled as `Nat`, buffers as `List Nat`, and the driver
calls a function makes are recorded in explicit trace lists so that ordering
and side-effect claims can be stated.
-/

namespace MyTransportRFM69

/-- Radio operating mode, the `RadioMode` state of the spec (the driver's
`RFM69_RADIO_MODE_*` enumeration; the callback only distinguishes
receiving from the rest). -/
inductive RadioMode where
  | receiving
  | transmitting
  | standby
  | sleeping
  | poweredDown
deriving DecidableEq, Repr

/-- One queued frame slot, `struct _transportQueuedMessage`: a length plus the
raw payload bytes. -/
structure transportQueuedMessage where
  m_len : Nat
  m_data : List Nat
deriving DecidableEq, Repr

/-- Driver calls observable from the interrupt receive callback, in the order
the callback makes them. -/
inductive RxCall where
  | interruptHandling
  | readMessageBuf
  | readMessageNull
  | setRadioModeRX
deriving DecidableEq, Repr

/-- State of the buffered (new-driver, `MY_RX_MESSAGE_BUFFER_FEATURE`)
transport: the circular receive queue (oldest frame first), the static
`transportLostMessageCount`, the driver's radio mode and
`RFM69_tx_completed` flag, and the driver's stored node address. -/
structure NewState where
  transportRxQueue : List transportQueuedMessage
  transportLostMessageCount : Nat
  radioMode : RadioMode
  tx_completed : Bool
  address : Nat
deriving DecidableEq, Repr

/-- Modelled from the spec: `CircularBuffer::full` (the container in
`drivers/CircularBuffer/CircularBuffer.h` is not under `src/`).  Per spec
S4.1 the queue is full exactly when the count equals the fixed capacity N. -/
def queueFull (N : Nat) (q : List transportQueuedMessage) : Bool :=
  q.length == N

/-- Modelled from the spec: the `getFront`/`pushFront` commit of one fully
populated slot at the tail (spec S4.1 `tryEnqueue` success path).  The list
keeps the oldest frame at its head. -/
def queuePushFront (q : List transportQueuedMessage)
    (m : transportQueuedMessage) : List transportQueuedMessage :=
  q ++ [m]

/-- Modelled from the spec: `CircularBuffer::getBack` returns the oldest
buffered frame (spec S4.1 `tryDequeue` reads the slot at head), or none when
the queue is empty. -/
def queueGetBack (q : List transportQueuedMessage) :
    Option transportQueuedMessage :=
  q.head?

/-- Modelled from the spec: `CircularBuffer::popBack` frees the oldest slot. -/
def queuePopBack (q : List transportQueuedMessage) :
    List transportQueuedMessage :=
  q.tail

/-- The interrupt receive callback `transportRxCallback` (buffered
configuration).  `dataReceived` and `payload` stand for what the external
driver decoder (`RFM69_interruptHandling` / `RFM69_readMessage`) exposes:
`RFM69.dataReceived` and the frame bytes a read returns.  Returns the new
state together with the trace of driver calls made. -/
def transportRxCallback (N : Nat) (s : NewState) (dataReceived : Bool)
    (payload : List Nat) : NewState × List RxCall :=
  if s.radioMode = RadioMode.receiving then
    if dataReceived then
      if !(queueFull N s.transportRxQueue) then
        ({ s with transportRxQueue :=
              queuePushFront s.transportRxQueue ⟨payload.length, payload⟩ },
         [RxCall.interruptHandling, RxCall.readMessageBuf])
      else
        ({ s with transportLostMessageCount :=
              if s.transportLostMessageCount < 255 then
                s.transportLostMessageCount + 1
              else
                s.transportLostMessageCount },
         [RxCall.interruptHandling, RxCall.readMessageNull])
    else
      (s, [RxCall.interruptHandling])
  else
    ({ s with tx_completed := true, radioMode := RadioMode.receiving },
     [RxCall.setRadioModeRX])

/-- `transportReceive` (buffered configuration): dequeues the oldest frame if
any, copying `m_len` bytes of its payload into the caller's buffer.  Returns
the new state, the returned length, and the bytes copied into the caller's
buffer (`none` when nothing is written). -/
def transportReceive (s : NewState) : NewState × Nat × Option (List Nat) :=
  match queueGetBack s.transportRxQueue with
  | none => (s, 0, none)
  | some msg =>
      ({ s with transportRxQueue := queuePopBack s.transportRxQueue },
       msg.m_len, some (msg.m_data.take msg.m_len))

/-- Applies `transportRxCallback` n times with the same received payload. -/
def iterRxCallback (N : Nat) (payload : List Nat) : Nat → NewState → NewState
  | 0, s => s
  | n + 1, s => iterRxCallback N payload n (transportRxCallback N s true payload).1

/-- Feeds a list of received payloads through the interrupt callback, in
order. -/
def feedFrames (N : Nat) : List (List Nat) → NewState → NewState
  | [], s => s
  | p :: ps, s => feedFrames N ps (transportRxCallback N s true p).1

/-- Repeatedly calls `transportReceive`, collecting each (length, copied
bytes) pair until the queue reports empty; the fuel argument bounds the
recursion. -/
def drainFrames : Nat → NewState → List (Nat × List Nat)
  | 0, _ => []
  | n + 1, s =>
      match transportReceive s with
      | (_, _, none) => []
      | (s', len, some bytes) => (len, bytes) :: drainFrames n s'

/-- Sample buffered-configuration state whose 2-slot queue is full. -/
def sampleFull : NewState :=
  ⟨[⟨1, [7]⟩, ⟨1, [8]⟩], 0, RadioMode.receiving, false, 0⟩

/-- Sample buffered-configuration state with an empty queue. -/
def sampleEmpty : NewState :=
  ⟨[], 0, RadioMode.receiving, false, 0⟩

/-- Sample buffered-configuration state sitting in transmit mode. -/
def sampleTx : NewState :=
  ⟨[], 0, RadioMode.transmitting, false, 0⟩

lemma rxCallback_enqueue (N : Nat) (s : NewState) (p : List Nat)
    (hmode : s.radioMode = RadioMode.receiving)
    (hroom : s.transportRxQueue.length < N) :
    transportRxCallback N s true p =
      ({ s with transportRxQueue := s.transportRxQueue ++ [⟨p.length, p⟩] },
       [RxCall.interruptHandling, RxCall.readMessageBuf]) := by
  have hne : s.transportRxQueue.length ≠ N := Nat.ne_of_lt hroom
  simp [transportRxCallback, hmode, queueFull, queuePushFront, hne]

lemma rxCallback_full (N : Nat) (s : NewState) (p : List Nat)
    (hmode : s.radioMode = RadioMode.receiving)
    (hfull : s.transportRxQueue.length = N) :
    transportRxCallback N s true p =
      ({ s with transportLostMessageCount :=
            if s.transportLostMessageCount < 255 then
              s.transportLostMessageCount + 1
            else
              s.transportLostMessageCount },
       [RxCall.interruptHandling, RxCall.readMessageNull]) := by
  simp [transportRxCallback, hmode, queueFull, hfull]

/-- Claim C10: in the buffered configuration, an interrupt in receive mode
with no frame decoded (`dataReceived = false`) changes nothing observable:
the state (queue, lost counter, mode) is returned exactly as it was, and the
only driver call is the interrupt decode itself. -/
theorem rxCallback_noData_noEffect (N : Nat) (s : NewState) (p : List Nat)
    (hmode : s.radioMode = RadioMode.receiving) :
    transportRxCallback N s false p = (s, [RxCall.interruptHandling]) := by
  simp [transportRxCallback, hmode]

/-- Witness for C10 at a concrete receive-mode state. -/
theorem rxCallback_noData_noEffect_witness :
    sampleEmpty.radioMode = RadioMode.receiving ∧
      transportRxCallback 2 sampleEmpty false [3, 4] =
        (sampleEmpty, [RxCall.interruptHandling]) :=
  ⟨rfl, rxCallback_noData_noEffect 2 sampleEmpty [3, 4] rfl⟩

/-- Claim C3: whenever the interrupt callback runs while the radio is not in
receive mode (a transmission-complete event), it latches
`RFM69_tx_completed` and forces the radio mode back to receiving, so the
radio never stays in transmit mode after the hardware reports completion. -/
theorem rxCallback_txComplete_returnsToRx (N : Nat) (s : NewState)
    (d : Bool) (p : List Nat)
    (hmode : s.radioMode ≠ RadioMode.receiving) :
    (transportRxCallback N s d p).1.radioMode = RadioMode.receiving ∧
      (transportRxCallback N s d p).1.tx_completed = true := by
  simp [transportRxCallback, hmode]

/-- Witness for C3 at a concrete transmitting state. -/
theorem rxCallback_txComplete_returnsToRx_witness :
    sampleTx.radioMode ≠ RadioMode.receiving ∧
      ((transportRxCallback 2 sampleTx true []).1.radioMode =
          RadioMode.receiving ∧
        (transportRxCallback 2 sampleTx true []).1.tx_completed = true) :=
  ⟨by decide, rxCallback_txComplete_returnsToRx 2 sampleTx true [] (by decide)⟩

lemma iterRxCallback_full (N : Nat) (p : List Nat) (n : Nat) (s : NewState)
    (hmode : s.radioMode = RadioMode.receiving)
    (hfull : s.transportRxQueue.length = N)
    (hlost : s.transportLostMessageCount ≤ 255) :
    (iterRxCallback N p n s).transportLostMessageCount =
        min (s.transportLostMessageCount + n) 255 ∧
      (iterRxCallback N p n s).transportRxQueue = s.transportRxQueue := by
  induction n generalizing s with
  | zero =>
      simp [iterRxCallback]
      omega
  | succ n ih =>
      have hstep := rxCallback_full N s p hmode hfull
      simp only [iterRxCallback, hstep]
      by_cases hlt : s.transportLostMessageCount < 255
      · have h := ih { s with transportLostMessageCount :=
            s.transportLostMessageCount + 1 } hmode hfull (by simp; omega)
        simp only [hlt, if_pos] at *
        refine ⟨?_, h.2⟩
        rw [h.1]
        omega
      · have h255 : s.transportLostMessageCount = 255 := by omega
        have h := ih { s with transportLostMessageCount :=
            s.transportLostMessageCount } hmode hfull (by simpa using hlost)
        simp only [hlt, if_neg, not_false_iff] at *
        refine ⟨?_, h.2⟩
        rw [h.1, h255]
        omega

/-- Claim C1: when the interrupt callback runs with the queue full, the
enqueue fails and the frame is discarded (queue contents unchanged), the
hardware receive-complete condition is still cleared by a null-buffer read,
and the lost-frame counter gains exactly 1, saturating at 255; iterating any
number n of consecutive overflow events leaves the counter at
min (initial + n) 255 — after 300 events from 0 it reads exactly 255, never
wrapped — with the queue still unchanged. -/
theorem rxCallback_overflow_saturates (N : Nat) (s : NewState) (p : List Nat)
    (hmode : s.radioMode = RadioMode.receiving)
    (hfull : s.transportRxQueue.length = N)
    (hlost : s.transportLostMessageCount ≤ 255) :
    (transportRxCallback N s true p).1.transportRxQueue =
        s.transportRxQueue ∧
      RxCall.readMessageNull ∈ (transportRxCallback N s true p).2 ∧
      (transportRxCallback N s true p).1.transportLostMessageCount =
        min (s.transportLostMessageCount + 1) 255 ∧
      ∀ n : Nat,
        (iterRxCallback N p n s).transportLostMessageCount =
            min (s.transportLostMessageCount + n) 255 ∧
          (iterRxCallback N p n s).transportRxQueue = s.transportRxQueue := by
  have hstep := rxCallback_full N s p hmode hfull
  refine ⟨by rw [hstep], by rw [hstep]; simp, ?_, fun n =>
    iterRxCallback_full N p n s hmode hfull hlost⟩
  rw [hstep]
  by_cases hlt : s.transportLostMessageCount < 255 <;> simp [hlt] <;> omega

/-- Witness for C1: a full 2-slot queue; one overflow leaves the queue
unchanged, clears the receive condition with a null read, and sets the lost
counter to 1; 300 consecutive overflows read exactly 255. -/
theorem rxCallback_overflow_saturates_witness :
    (transportRxCallback 2 sampleFull true [1, 2]).1.transportRxQueue =
        sampleFull.transportRxQueue ∧
      RxCall.readMessageNull ∈ (transportRxCallback 2 sampleFull true [1, 2]).2 ∧
      (transportRxCallback 2 sampleFull true [1, 2]).1.transportLostMessageCount = 1 ∧
      (iterRxCallback 2 [1, 2] 300 sampleFull).transportLostMessageCount = 255 := by
  have h := rxCallback_overflow_saturates 2 sampleFull [1, 2] rfl (by decide)
    (by decide)
  exact ⟨h.1, h.2.1, by rw [h.2.2.1]; decide, by rw [(h.2.2.2 300).1]; decide⟩

lemma feedFrames_queue (N : Nat) (ps : List (List Nat)) (s : NewState)
    (hmode : s.radioMode = RadioMode.receiving)
    (hroom : s.transportRxQueue.length + ps.length ≤ N) :
    feedFrames N ps s =
      { s with transportRxQueue :=
          s.transportRxQueue ++
            ps.map (fun p => ⟨p.length, p⟩) } := by
  induction ps generalizing s with
  | nil => simp [feedFrames]
  | cons p ps ih =>
      have hlt : s.transportRxQueue.length < N := by
        simp only [List.length_cons] at hroom
        omega
      have hstep := rxCallback_enqueue N s p hmode hlt
      simp only [feedFrames, hstep]
      rw [ih]
      · simp
      · exact hmode
      · have hgoal : s.transportRxQueue.length + 1 + ps.length ≤ N := by
          simp only [List.length_cons] at hroom
          omega
        simpa using hgoal

lemma drainFrames_spec (q : List transportQueuedMessage) (s : NewState)
    (hq : s.transportRxQueue = q) :
    drainFrames q.length s =
      q.map (fun m => (m.m_len, m.m_data.take m.m_len)) := by
  induction q generalizing s with
  | nil => simp [drainFrames]
  | cons m rest ih =>
      have hrecv : transportReceive s =
          ({ s with transportRxQueue := rest }, m.m_len,
            some (m.m_data.take m.m_len)) := by
        simp [transportReceive, queueGetBack, queuePopBack, hq]
      simp only [List.length_cons, drainFrames, hrecv, List.map_cons]
      rw [ih { s with transportRxQueue := rest } rfl]

/-- Claim C2: frames enqueued by the interrupt callback with no overflow are
returned by repeated `transportReceive` calls in exact FIFO order, each with
byte-for-byte identical payload and identical length; and the overflow
policy drops the newest arriving frame, leaving the oldest buffered frames
untouched. -/
theorem transportReceive_fifoOrder (N : Nat) (ps : List (List Nat))
    (s : NewState)
    (hmode : s.radioMode = RadioMode.receiving)
    (hempty : s.transportRxQueue = [])
    (hroom : ps.length ≤ N) :
    drainFrames (feedFrames N ps s).transportRxQueue.length
        (feedFrames N ps s) =
      ps.map (fun p => (p.length, p)) ∧
      ∀ (t : NewState) (q : List Nat),
        t.radioMode = RadioMode.receiving →
        t.transportRxQueue.length = N →
        (transportRxCallback N t true q).1.transportRxQueue =
          t.transportRxQueue := by
  constructor
  · have hfeed := feedFrames_queue N ps s hmode (by simp [hempty, hroom])
    have hqueue : (feedFrames N ps s).transportRxQueue =
        ps.map (fun p => ⟨p.length, p⟩) := by
      rw [hfeed]; simp [hempty]
    calc drainFrames (feedFrames N ps s).transportRxQueue.length
            (feedFrames N ps s)
        = (ps.map (fun p => (⟨p.length, p⟩ : transportQueuedMessage))).map
            (fun m => (m.m_len, m.m_data.take m.m_len)) := by
          rw [hqueue]
          exact drainFrames_spec _ _ hqueue
      _ = ps.map (fun p => (p.length, p)) := by
          simp [List.map_map, Function.comp]
  · intro t q htmode htfull
    rw [rxCallback_full N t q htmode htfull]

/-- Witness for C2: two frames fed into an empty 2-slot queue drain in FIFO
order with identical bytes, and an overflow on the full queue leaves its
contents untouched. -/
theorem transportReceive_fifoOrder_witness :
    drainFrames (feedFrames 2 [[1, 2], [3]] sampleEmpty).transportRxQueue.length
        (feedFrames 2 [[1, 2], [3]] sampleEmpty) =
      [(2, [1, 2]), (1, [3])] ∧
      (transportRxCallback 2 sampleFull true [9]).1.transportRxQueue =
        sampleFull.transportRxQueue := by
  have h := transportReceive_fifoOrder 2 [[1, 2], [3]] sampleEmpty rfl rfl
    (by decide)
  exact ⟨h.1, h.2 sampleFull [9] rfl (by decide)⟩

/-- State of the synchronous (old-driver) configuration: the file-static
`_address`, the driver object's stored address, and the `_radio` object's
public last-received-frame fields (`DATALEN`, `DATA`, `ACKRequested()`). -/
structure OldState where
  _address : Nat
  radioAddress : Nat
  DATALEN : Nat
  DATA : List Nat
  ackRequested : Bool
deriving DecidableEq, Repr

/-- Sample synchronous-configuration state. -/
def sampleOld : OldState :=
  ⟨0, 0, 3, [5, 6, 7, 9], true⟩

/-- Outcome of a `transportSend` call: the boolean returned to the caller
together with the retry count and retry wait time passed to the driver's
send-with-retry primitive (recording how the send was dispatched). -/
structure SendOutcome where
  result : Bool
  retries : Nat
  retryWaitTime : Nat
deriving DecidableEq, Repr

/-- `transportSend`, new-driver variant.  `sendWithRetry` stands for the
external driver primitive `RFM69_sendWithRetry`; `defRetries`/`defWait` are
its header-default arguments used when the call site omits them.  With
`noACK` the primitive is dispatched with zero retries and zero wait and its
result is discarded; otherwise its result is returned. -/
def transportSendNew (sendWithRetry : Nat → List Nat → Nat → Nat → Nat → Bool)
    (defRetries defWait : Nat) (dest : Nat) (data : List Nat) (len : Nat)
    (noACK : Bool) : SendOutcome :=
  if noACK then
    { result := true, retries := 0, retryWaitTime := 0 }
  else
    { result := sendWithRetry dest data len defRetries defWait,
      retries := defRetries, retryWaitTime := defWait }

/-- `transportSend`, old-driver variant: structurally identical, forwarding
to `_radio.sendWithRetry`. -/
def transportSendOld (sendWithRetry : Nat → List Nat → Nat → Nat → Nat → Bool)
    (defRetries defWait : Nat) (dest : Nat) (data : List Nat) (len : Nat)
    (noACK : Bool) : SendOutcome :=
  if noACK then
    { result := true, retries := 0, retryWaitTime := 0 }
  else
    { result := sendWithRetry dest data len defRetries defWait,
      retries := defRetries, retryWaitTime := defWait }

/-- Claim C4: in both driver variants, `transportSend` with `noACK = true`
returns true for every destination, payload, length and driver outcome,
dispatching with zero retries and zero wait; with `noACK = false` it returns
exactly the boolean outcome of the driver's send-with-retry primitive. -/
theorem transportSend_ackPolicy
    (swrNew swrOld : Nat → List Nat → Nat → Nat → Nat → Bool)
    (defRetries defWait dest len : Nat) (data : List Nat) :
    (transportSendNew swrNew defRetries defWait dest data len true).result =
        true ∧
      (transportSendNew swrNew defRetries defWait dest data len true).retries =
        0 ∧
      (transportSendNew swrNew defRetries defWait dest data len
          true).retryWaitTime = 0 ∧
      (transportSendNew swrNew defRetries defWait dest data len false).result =
        swrNew dest data len defRetries defWait ∧
      (transportSendOld swrOld defRetries defWait dest data len true).result =
        true ∧
      (transportSendOld swrOld defRetries defWait dest data len false).result =
        swrOld dest data len defRetries defWait := by
  simp [transportSendNew, transportSendOld]

/-- `transportReceive`, synchronous (old-driver) configuration: copies
`min(_radio.DATALEN, MAX_MESSAGE_LENGTH)` bytes from `_radio.DATA` into the
caller's buffer, sends an acknowledgement exactly when the received frame
requested one, and returns the copied length.  Result: (returned length,
bytes copied, whether `sendACK` was called). -/
def transportReceiveOld (MAX_MESSAGE_LENGTH : Nat) (s : OldState) :
    Nat × List Nat × Bool :=
  let dataLen :=
    if s.DATALEN < MAX_MESSAGE_LENGTH then s.DATALEN else MAX_MESSAGE_LENGTH
  (dataLen, s.DATA.take dataLen, s.ackRequested)

/-- Claim C7: in the buffered configuration `transportReceive` returns 0 and
writes nothing when the queue is empty, and otherwise dequeues exactly the
oldest frame, copies its payload, and returns its length; in the synchronous
configuration it copies min(last-received length, MAX_MESSAGE_LENGTH) bytes
of the driver's last-received frame, returns that length, and triggers an
acknowledgement send exactly when the frame requested one. -/
theorem transportReceive_contract (MAXLEN : Nat) (s : NewState)
    (t : OldState) :
    (transportReceive s =
        match s.transportRxQueue with
        | [] => (s, 0, none)
        | m :: rest =>
            ({ s with transportRxQueue := rest }, m.m_len,
              some (m.m_data.take m.m_len))) ∧
      transportReceiveOld MAXLEN t =
        (min t.DATALEN MAXLEN, t.DATA.take (min t.DATALEN MAXLEN),
          t.ackRequested) := by
  constructor
  · cases hq : s.transportRxQueue with
    | nil => simp [transportReceive, queueGetBack, hq]
    | cons m rest => simp [transportReceive, queueGetBack, queuePopBack, hq]
  · have hmin : (if t.DATALEN < MAXLEN then t.DATALEN else MAXLEN) =
        min t.DATALEN MAXLEN := by
      rcases Nat.lt_or_ge t.DATALEN MAXLEN with h | h
      · simp [h, Nat.min_eq_left (Nat.le_of_lt h)]
      · simp [Nat.not_lt.mpr h, Nat.min_eq_right h]
    simp [transportReceiveOld, hmin]

/-- Modelled from the spec: `RFM69_setTxPowerLevel` (new-driver source is not
under `src/`).  Per spec S4.3 the level is bounded to the documented
accepted range 0-23; an out-of-range request returns false with no state
mutated.  Takes and returns the driver's stored power level. -/
def RFM69_setTxPowerLevel (storedLevel : Nat) (powerLevel : Nat) :
    Bool × Nat :=
  if powerLevel ≤ 23 then (true, powerLevel) else (false, storedLevel)

/-- `transportSetTxPowerLevel`, new-driver variant: forwards to
`RFM69_setTxPowerLevel` (source comment: range 0..23). -/
def transportSetTxPowerLevelNew (storedLevel powerLevel : Nat) : Bool × Nat :=
  RFM69_setTxPowerLevel storedLevel powerLevel

/-- `transportSetTxPowerLevel`, synchronous (old-driver) variant: not
implemented — ignores the level and returns false, touching no state. -/
def transportSetTxPowerLevelOld (s : OldState) (_powerLevel : Nat) :
    Bool × OldState :=
  (false, s)

/-- Claim C8: `transportSetTxPowerLevel` returns false and mutates no state
for any level outside the accepted 0-23 range, and in the synchronous
(old-driver) configuration it returns false for every input level with no
side effect. -/
theorem transportSetTxPowerLevel_range (storedLevel powerLevel : Nat)
    (t : OldState) (hout : 23 < powerLevel) :
    transportSetTxPowerLevelNew storedLevel powerLevel =
        (false, storedLevel) ∧
      ∀ lvl : Nat, transportSetTxPowerLevelOld t lvl = (false, t) := by
  constructor
  · simp [transportSetTxPowerLevelNew, RFM69_setTxPowerLevel,
      Nat.not_le.mpr hout]
  · intro lvl
    rfl

/-- Witness for C8: level 24 is rejected in the buffered configuration and
any level is rejected in the synchronous one. -/
theorem transportSetTxPowerLevel_range_witness :
    transportSetTxPowerLevelNew 5 24 = (false, 5) ∧
      transportSetTxPowerLevelOld sampleOld 7 = (false, sampleOld) := by
  have h := transportSetTxPowerLevel_range 5 24 sampleOld (by decide)
  exact ⟨h.1, h.2 7⟩

/-- `transportSetAddress`, new-driver variant.  Modelled from the spec:
`RFM69_setAddress`/`RFM69_getAddress` (driver source not under `src/`) are
the driver's stored-node-address accessor pair (spec S6 capability set);
the facade forwards to them. -/
def transportSetAddressNew (s : NewState) (address : Nat) : NewState :=
  { s with address := address }

/-- `transportGetAddress`, new-driver variant: reads the driver's stored
address. -/
def transportGetAddressNew (s : NewState) : Nat :=
  s.address

/-- `transportSetAddress`, old-driver variant: stores the address in the
file-static `_address` and forwards it to `_radio.setAddress`. -/
def transportSetAddressOld (s : OldState) (address : Nat) : OldState :=
  { s with _address := address, radioAddress := address }

/-- `transportGetAddress`, old-driver variant: returns the file-static
`_address`. -/
def transportGetAddressOld (s : OldState) : Nat :=
  s._address

/-- Claim C9: `transportSetAddress` / `transportGetAddress` form a pure
accessor pair in both variants: for every address in 0-255, get-after-set
returns the value set (no validation rejects any value in the domain), and
setting the address leaves the queue, lost counter and radio mode
untouched. -/
theorem transportAddress_accessorPair (s : NewState) (t : OldState) (a : Nat)
    (ha : a < 256) :
    transportGetAddressNew (transportSetAddressNew s a) = a ∧
      (transportSetAddressNew s a).transportRxQueue = s.transportRxQueue ∧
      (transportSetAddressNew s a).transportLostMessageCount =
        s.transportLostMessageCount ∧
      (transportSetAddressNew s a).radioMode = s.radioMode ∧
      transportGetAddressOld (transportSetAddressOld t a) = a := by
  refine ⟨rfl, rfl, rfl, rfl, rfl⟩

/-- Witness for C9 at address 42. -/
theorem transportAddress_accessorPair_witness :
    transportGetAddressNew (transportSetAddressNew sampleEmpty 42) = 42 ∧
      (transportSetAddressNew sampleEmpty 42).transportRxQueue =
        sampleEmpty.transportRxQueue ∧
      transportGetAddressOld (transportSetAddressOld sampleOld 42) = 42 := by
  have h := transportAddress_accessorPair sampleEmpty sampleOld 42 (by decide)
  exact ⟨h.1, h.2.1, h.2.2.2.2⟩

/-- Calls `transportInit` makes to its collaborators, in program order.
`encrypt` carries the key handed to the driver's encrypt function;
`wipeLocalKey` carries the contents of the local key buffer right after the
`memset(RFM69_psk, 0, 16)` that follows it. -/
inductive InitCall where
  | registerReceiveCallback
  | initialise
  | ATCmode
  | encrypt (key : List Nat)
  | wipeLocalKey (buf : List Nat)
deriving DecidableEq, Repr

/-- Build-time configuration switches of `transportInit`:
`MY_RX_MESSAGE_BUFFER_FEATURE`, ATC enabled (neither `MY_GATEWAY_FEATURE`
nor `MY_RFM69_ATC_MODE_DISABLED`), and `MY_RFM69_ENABLE_ENCRYPTION`. -/
structure InitConfig where
  rxBufferFeature : Bool
  atcEnabled : Bool
  encryptionEnabled : Bool
deriving DecidableEq, Repr

/-- `memset` over a byte list: writes value v into the first n cells. -/
def memsetList (buf : List Nat) (v : Nat) (n : Nat) : List Nat :=
  List.replicate (min n buf.length) v ++ buf.drop n

/-- `transportInit`, new-driver variant.  `psk` is the 16-byte key the
provisioning collaborator supplies (passphrase or config storage);
`initResult` is what `RFM69_initialise` returns.  Returns the boolean given
back to the caller and the trace of collaborator calls: the receive callback
is registered before bring-up, and the ATC and encryption configuration run
unconditionally after it, whatever `initResult` is. -/
def transportInitNew (cfg : InitConfig) (psk : List Nat) (initResult : Bool) :
    Bool × List InitCall :=
  (initResult,
    (if cfg.rxBufferFeature then [InitCall.registerReceiveCallback] else []) ++
      [InitCall.initialise] ++
      (if cfg.atcEnabled then [InitCall.ATCmode] else []) ++
      (if cfg.encryptionEnabled then
        [InitCall.encrypt psk, InitCall.wipeLocalKey (memsetList psk 0 16)]
      else []))

/-- `transportInit`, old-driver variant: the encryption configuration runs
only inside the success branch of `_radio.initialize`. -/
def transportInitOld (cfg : InitConfig) (psk : List Nat) (initResult : Bool) :
    Bool × List InitCall :=
  if initResult then
    (true,
      [InitCall.initialise] ++
        (if cfg.encryptionEnabled then
          [InitCall.encrypt psk, InitCall.wipeLocalKey (memsetList psk 0 16)]
        else []))
  else
    (false, [InitCall.initialise])

lemma memsetList_wipe (psk : List Nat) (hlen : psk.length = 16) :
    memsetList psk 0 16 = List.replicate 16 0 := by
  have hdrop : psk.drop 16 = [] := by
    apply List.drop_eq_nil_of_le
    omega
  simp [memsetList, hlen, hdrop]

/-- Counterexample to claim C5 as stated: with all features enabled and a
failing bring-up, `transportInitNew` does return false, but partial state is
observable — the receive callback was registered and the ATC target and
encryption key were still applied to the driver. -/
theorem transportInit_partialState_cex :
    (transportInitNew ⟨true, true, true⟩ (List.replicate 16 1) false).1 =
        false ∧
      InitCall.registerReceiveCallback ∈
        (transportInitNew ⟨true, true, true⟩ (List.replicate 16 1) false).2 ∧
      InitCall.ATCmode ∈
        (transportInitNew ⟨true, true, true⟩ (List.replicate 16 1) false).2 ∧
      InitCall.encrypt (List.replicate 16 1) ∈
        (transportInitNew ⟨true, true, true⟩ (List.replicate 16 1) false).2 := by
  decide

/-- Claim C5 as amended: `transportInit` returns false exactly when driver
bring-up fails.  In the old-driver variant a failed bring-up leaves no
partial state (the only collaborator call is the bring-up itself, so no
encryption key is installed); in the new-driver variant the receive
callback is registered before bring-up and the ATC/encryption configuration
calls are made regardless of the bring-up outcome. -/
theorem transportInit_failureBehaviour (cfg : InitConfig) (psk : List Nat) :
    transportInitOld cfg psk false = (false, [InitCall.initialise]) ∧
      ∀ initResult : Bool,
        (transportInitNew cfg psk initResult).1 = initResult ∧
          (transportInitNew cfg psk initResult).2 =
            (transportInitNew cfg psk true).2 := by
  refine ⟨by simp [transportInitOld], fun initResult => ⟨rfl, rfl⟩⟩

/-- Claim C6: whenever `transportInit` installs encryption material (either
variant), the 16-byte local key copy is overwritten with zeros immediately
after the driver's encrypt call — the trace shows the wipe of the local
buffer to all zeros directly following the encrypt of the original key, and
the `memset(psk, 0, 16)` of a 16-byte buffer is exactly the all-zero
buffer. -/
theorem transportInit_wipesLocalKey (cfg : InitConfig) (psk : List Nat)
    (initResult : Bool) (hlen : psk.length = 16)
    (henc : cfg.encryptionEnabled = true) :
    (∃ pre post, (transportInitNew cfg psk initResult).2 =
        pre ++
          [InitCall.encrypt psk, InitCall.wipeLocalKey (List.replicate 16 0)]
          ++ post) ∧
      (∃ pre post, (transportInitOld cfg psk true).2 =
        pre ++
          [InitCall.encrypt psk, InitCall.wipeLocalKey (List.replicate 16 0)]
          ++ post) ∧
      memsetList psk 0 16 = List.replicate 16 0 := by
  have hwipe := memsetList_wipe psk hlen
  refine ⟨⟨(if cfg.rxBufferFeature then [InitCall.registerReceiveCallback]
      else []) ++ [InitCall.initialise] ++
      (if cfg.atcEnabled then [InitCall.ATCmode] else []), [], ?_⟩,
    ⟨[InitCall.initialise], [], ?_⟩, hwipe⟩
  · simp [transportInitNew, henc, hwipe]
  · simp [transportInitOld, henc, hwipe]

/-- Witness for C6 at a concrete 16-byte key with all features enabled. -/
theorem transportInit_wipesLocalKey_witness :
    (List.replicate 16 1).length = 16 ∧
      ((∃ pre post,
          (transportInitNew ⟨true, true, true⟩ (List.replicate 16 1) true).2 =
            pre ++
              [InitCall.encrypt (List.replicate 16 1),
                InitCall.wipeLocalKey (List.replicate 16 0)] ++ post) ∧
        (∃ pre post,
          (transportInitOld ⟨true, true, true⟩ (List.replicate 16 1) true).2 =
            pre ++
              [InitCall.encrypt (List.replicate 16 1),
                InitCall.wipeLocalKey (List.replicate 16 0)] ++ post) ∧
        memsetList (List.replicate 16 1) 0 16 = List.replicate 16 0) :=
  ⟨by decide,
    transportInit_wipesLocalKey ⟨true, true, true⟩ (List.replicate 16 1) true
      (by decide) rfl⟩

end MyTransportRFM69
